import Mathlib

set_option linter.unusedVariables false

/-
Verification of the katagollum web frontend.

Shallow embedding of the TypeScript sources:
  * the API client (fetch wrappers and data interfaces),
  * the board renderer GoBoard (coordinate formatting/parsing, star points),
  * the page controller Home (startGame condition, handleMoveSubmit).

JavaScript numbers are modelled as Int (board sizes, rows, columns,
handicaps, message ids) or Rat (komi, score_delta); no arithmetic that
could exhibit floating-point behaviour is performed on them in the
embedded code.  Fetch calls are modelled by passing the outcome of the
awaited network operation as an explicit argument.
-/

namespace Katagollum

/-- JavaScript `x || y` on an optional field access `prev?.f`:
`none` models `prev` being null (so the access is `undefined`), and a
present value still falls through to the default when it is falsy for
its type (`isFalsy`). -/
def jsOr {α : Type} (isFalsy : α → Bool) (x : Option α) (dflt : α) : α :=
  match x with
  | none => dflt
  | some v => if isFalsy v then dflt else v

/-- Truthiness of a nullable JavaScript string: null and the empty
string are falsy. -/
def jsTruthyStr (x : Option String) : Bool :=
  match x with
  | none => false
  | some s => !(s == "")

/-- JavaScript `parseInt(s, 10)` restricted to the inputs that occur
here (no sign, no leading whitespace): parse the longest digit prefix;
`none` models the `NaN` result when no digit is present. -/
def jsParseInt (s : String) : Option Nat :=
  let ds := s.toList.takeWhile (fun c => c.isDigit)
  if ds.isEmpty then none
  else some (ds.foldl (fun n c => n * 10 + (c.toNat - 48)) 0)

/-! ## Data model (interfaces in src/unnamed/part_000) -/

/-- The `Game` interface. -/
structure Game where
  id : Nat
  board_size : Int
  komi : Rat
  handicap : Int
  user_color : String
  ai_color : String
  game_over : Bool
  persona : String
  created_at : String
deriving DecidableEq

/-- The `Move` interface. -/
structure Move where
  id : Nat
  color : String
  coordinate : String
  move_number : Int
deriving DecidableEq

/-- The `BoardState` interface. -/
structure BoardState where
  board_size : Int
  komi : Rat
  user_color : String
  ai_color : String
  game_over : Bool
  board : List (List String)
  moves : List Move
deriving DecidableEq

/-- The `ChatMsg` interface; the role is kept as a string with values
"user" and "assistant". -/
structure ChatMsg where
  id : Nat
  role : String
  content : String
  created_at : String
deriving DecidableEq

/-- The `KataGoBoardState` interface. -/
structure KataGoBoardState where
  board : List (List String)
  board_size : Int
deriving DecidableEq

/-! ## API client (src/unnamed/part_000) -/

/-- An HTTP response as the fetch wrappers observe it: the `ok` status
flag, the body as text (used only by `sendChatMessage` to build its
error), and the body as parsed JSON, assumed well-typed at the type
the wrapper expects. -/
structure HttpResponse (α : Type) where
  ok : Bool
  text : String
  body : α
deriving DecidableEq

namespace Api

/-- Result shape of the submit_move endpoint. -/
structure SubmitMoveResult where
  game : Game
  user_move : String
  ai_move : Option String
  score_delta : Rat
  bot_response : String
deriving DecidableEq

/-- Result shape of the send_message endpoint. -/
structure ChatSendResult where
  user_message : ChatMsg
  bot_message : ChatMsg
deriving DecidableEq

/-- Result shape of the first_move endpoint. -/
structure FirstMoveResult where
  move : Option String
  color : Option String
  message : Option String
  board_state : BoardState
deriving DecidableEq

/-- `createGame`: posts the configuration and returns `res.json()`
without inspecting the response status. -/
def createGame (boardSize : Int) (komi : Rat) (handicap : Int)
    (userColor : String) (persona : String) (res : HttpResponse Game) : Game :=
  res.body

/-- `getGameBoard`: returns `res.json()` without inspecting the
response status. -/
def getGameBoard (gameId : Nat) (res : HttpResponse BoardState) : BoardState :=
  res.body

/-- `submitMove`: posts the coordinate and returns `res.json()`
without inspecting the response status. -/
def submitMove (gameId : Nat) (coordinate : String)
    (res : HttpResponse SubmitMoveResult) : SubmitMoveResult :=
  res.body

/-- `getChatMessages`: returns `res.json()` without inspecting the
response status. -/
def getChatMessages (gameId : Nat) (res : HttpResponse (List ChatMsg)) :
    List ChatMsg :=
  res.body

/-- `sendChatMessage`: throws `new Error("API error: " + text)` when
`res.ok` is false, otherwise returns `res.json()`. -/
def sendChatMessage (gameId : Nat) (content : String) (role : String)
    (res : HttpResponse ChatSendResult) : Except String ChatSendResult :=
  if !res.ok then .error ("API error: " ++ res.text) else .ok res.body

/-- `getFirstMove`: posts and returns `res.json()` without inspecting
the response status. -/
def getFirstMove (gameId : Nat) (res : HttpResponse FirstMoveResult) :
    FirstMoveResult :=
  res.body

/-- Parsed JSON body delivered by `res.json()`, or the rejection of
that promise on a malformed body. -/
inductive JsonOutcome (α : Type) where
  | parseError
  | value (a : α)
deriving DecidableEq

/-- The `result` envelope of the engine status response.  A missing or
non-array `board` field is modelled as `none`; a missing `board_size`
field is modelled as `none`. -/
structure KataGoResult where
  board : Option (List (List String))
  board_size : Option Int
deriving DecidableEq

/-- The engine status response body: `result` may be absent. -/
structure KataGoResponse where
  result : Option KataGoResult
deriving DecidableEq

/-- Every way the engine status fetch can come back: transport-level
rejection, expiry of the `AbortSignal.timeout(10000)` (which rejects
the fetch and lands in the same catch), or an HTTP response with a
status flag and a JSON body. -/
inductive KataGoFetchOutcome where
  | transportError
  | timeout
  | httpResponse (ok : Bool) (json : JsonOutcome KataGoResponse)
deriving DecidableEq

/-- `getKataGoBoardState`: the whole body is wrapped in try/catch, so
every rejection returns null; a non-ok status, a missing `result`
envelope, and a missing/non-array/empty `board` also return null.  On
success `board_size` is `data.result.board_size || board.length`. -/
def getKataGoBoardState (o : KataGoFetchOutcome) : Option KataGoBoardState :=
  match o with
  | .transportError => none
  | .timeout => none
  | .httpResponse ok json =>
    if !ok then none
    else
      match json with
      | .parseError => none
      | .value data =>
        match data.result with
        | none => none
        | some r =>
          match r.board with
          | none => none
          | some board =>
            if board.length == 0 then none
            else
              some { board := board,
                     board_size := jsOr (fun n => n == 0) r.board_size
                       (board.length : Int) }

end Api

/-! ## Board renderer (GoBoard component, src/unnamed/part_001) -/

/-- A row/column pair, as the two `parseCoordinate` helpers produce it. -/
structure RowCol where
  row : Int
  col : Int
deriving DecidableEq

namespace GoBoard

/-- `getCoordinate` from the GoBoard component: letter `fromCharCode(65 + col)`,
replaced by `fromCharCode(66 + col)` when `col >= 8` (skipping the
letter I), followed by `board_size - row`. -/
def getCoordinate (board_size : Int) (row col : Nat) : String :=
  let letter := if 8 ≤ col then Char.ofNat (66 + col) else Char.ofNat (65 + col)
  let number : Int := board_size - (row : Int)
  String.mk [letter] ++ toString number

/-- `parseCoordinate` from the GoBoard component: rejects short
strings, parses the digits (rejecting NaN), maps char codes above 73
with `- 66` and others with `- 65`, and returns null when row or
column leaves the board. -/
def parseCoordinate (board_size : Int) (coord : String) : Option RowCol :=
  if coord.length < 2 then none
  else
    let letter := coord.front.toUpper
    match jsParseInt (coord.drop 1) with
    | none => none
    | some number =>
      let charCode : Int := letter.toNat
      let col : Int := if 73 < charCode then charCode - 66 else charCode - 65
      let row : Int := board_size - (number : Int)
      if row < 0 ∨ board_size ≤ row ∨ col < 0 ∨ board_size ≤ col then none
      else some { row := row, col := col }

/-- One `stars[r][c] = true` assignment on the nested boolean array. -/
def setStar (stars : List (List Bool)) (r c : Nat) : List (List Bool) :=
  stars.set r ((stars.getD r []).set c true)

/-- `renderStarPoints` from the GoBoard component: a size × size grid
of `false`, with the star intersections of each supported size set in
the source's iteration order. -/
def renderStarPoints (size : Nat) : List (List Bool) :=
  let stars := List.replicate size (List.replicate size false)
  if size == 19 then
    [3, 9, 15].foldl (fun st r => [3, 9, 15].foldl (fun st2 c => setStar st2 r c) st) stars
  else if size == 13 then
    [3, 9].foldl (fun st r => [3, 9].foldl (fun st2 c => setStar st2 r c) st) stars
  else if size == 9 then
    let positions := [2, 6]
    let st := positions.foldl
      (fun st r => positions.foldl (fun st2 c => setStar st2 r c) st) stars
    setStar st 4 4
  else stars

/-- Reading `stars[r][c]`, false outside the grid. -/
def starAt (stars : List (List Bool)) (r c : Nat) : Bool :=
  (stars.getD r []).getD c false

/-- Row-major enumeration of the intersections marked as star points. -/
def starCoords (size : Nat) : List (Nat × Nat) :=
  (List.range size).flatMap fun r =>
    ((List.range size).filter fun c => starAt (renderStarPoints size) r c).map
      fun c => (r, c)

end GoBoard

/-! ## Page controller (Home component, src/web_frontend/app/page.tsx) -/

namespace Page

/-- The controller's `parseCoordinate` helper: uppercases the first
character, maps it to `charCodeAt(0) - 65`, decrements once when the
result is at least 8 (skipping the letter I), and computes
`boardSize - number`.  The JavaScript function always returns an
object; when `parseInt` yields NaN the object's `row` is NaN, a case
modelled here as `none` (the claims below only concern coordinates
whose digits parse). -/
def parseCoordinate (coord : String) (boardSize : Int) : Option RowCol :=
  (jsParseInt (coord.drop 1)).map fun (number : Nat) =>
    let letter := coord.front.toUpper
    let colA : Int := (letter.toNat : Int) - 65
    let col : Int := if 8 ≤ colA then colA - 1 else colA
    { row := boardSize - (number : Int), col := col }

/-- The `llmShouldMoveFirst` condition computed in `startGame`. -/
def llmShouldMoveFirst (handicap : Int) (userColor : String) : Bool :=
  (handicap == 0 && userColor == "W") || (decide (0 < handicap) && userColor == "B")

/-- The `pendingMove` ghost-stone record. -/
structure PendingMove where
  row : Int
  col : Int
  color : String
deriving DecidableEq

/-- The Home component's state hooks, gathered into one record. -/
structure PageState where
  game : Option Game
  boardState : Option BoardState
  messages : List ChatMsg
  isSubmitting : Bool
  isThinking : Bool
  previewCoord : Option String
  error : Option String
  pendingMove : Option PendingMove
  lastMoveCoord : Option String
deriving DecidableEq

/-- The outcome of the awaited calls inside `handleMoveSubmit`'s try
block: either `submitMove` rejects, or it resolves with a result,
after which `getKataGoBoardState` yields its nullable board (it never
rejects) and, on the fallback path only, `getGameBoard` either
resolves with a board or rejects. -/
inductive MoveOutcome where
  | submitRejects
  | submitResolves (result : Api.SubmitMoveResult)
      (kataGoBoard : Option KataGoBoardState)
      (dbFetch : Except Unit BoardState)

/-- `handleMoveSubmit`, as a transition on the controller state.  The
ids produced by `Date.now()` for the optimistic user entry and the
assistant entry are passed in as `userMsgId` and `botMsgId`, and the
`toISOString()` timestamps as `now`. -/
def handleMoveSubmit (s : PageState) (coordinate : String)
    (userMsgId botMsgId : Nat) (now : String) (outcome : MoveOutcome) : PageState :=
  match s.game with
  | none => s
  | some game =>
  if s.isSubmitting then s
  else
    let userMsg : ChatMsg :=
      { id := userMsgId, role := "user",
        content := "My move: " ++ coordinate, created_at := now }
    let s1 : PageState :=
      { s with previewCoord := none, error := none,
               pendingMove := (parseCoordinate coordinate game.board_size).map
                 fun rc => { row := rc.row, col := rc.col, color := game.user_color } }
    let s2 : PageState :=
      { s1 with messages := s1.messages ++ [userMsg],
                isSubmitting := true, isThinking := true }
    let s3 : PageState :=
      match outcome with
      | .submitRejects =>
        { s2 with error := some ("Failed to submit move"),
                  messages := s2.messages.filter fun m => m.id != userMsgId }
      | .submitResolves result kataGoBoard dbFetch =>
        let botMsg : ChatMsg :=
          { id := botMsgId, role := "assistant",
            content := result.bot_response, created_at := now }
        let s2a : PageState :=
          { s2 with messages :=
              (s2.messages.filter fun m => m.id != userMsgId) ++ [userMsg, botMsg] }
        let s2b : PageState :=
          { s2a with lastMoveCoord :=
              if jsTruthyStr result.ai_move then result.ai_move else some coordinate }
        let dbFallback : PageState :=
          match dbFetch with
          | .ok board => { s2b with boardState := some board }
          | .error _ =>
            { s2b with error := some ("Failed to submit move"),
                       messages := s2b.messages.filter fun m => m.id != userMsgId }
        match kataGoBoard with
        | some kb =>
          if 0 < kb.board.length then
            let newState : BoardState :=
              { board_size := kb.board_size,
                komi := jsOr (fun k => k == 0) (s2b.boardState.map fun b => b.komi)
                  game.komi,
                user_color := jsOr (fun c => c == "")
                  (s2b.boardState.map fun b => b.user_color) game.user_color,
                ai_color := jsOr (fun c => c == "")
                  (s2b.boardState.map fun b => b.ai_color) game.ai_color,
                game_over := jsOr (fun g => g == false)
                  (s2b.boardState.map fun b => b.game_over) game.game_over,
                board := kb.board,
                moves := jsOr (fun _ => false)
                  (s2b.boardState.map fun b => b.moves) [] }
            { s2b with boardState := some newState }
          else dbFallback
        | none => dbFallback
    { s3 with isSubmitting := false, isThinking := false, pendingMove := none }

end Page

/-- The column index the GoBoard parser assigns to a letter: char
codes above 73 map through `- 66`, others through `- 65`. -/
def letterColBoard (c : Char) : Int :=
  if 73 < (c.toNat : Int) then (c.toNat : Int) - 66 else (c.toNat : Int) - 65

/-! ## Concrete example values used by closed theorems -/

/-- A game whose game_over flag is true. -/
def exGame : Game :=
  { id := 1, board_size := 9, komi := 7.5, handicap := 0, user_color := "B",
    ai_color := "W", game_over := true, persona := "arrogant", created_at := "t0" }

/-- A prior displayed board state whose game_over flag is false. -/
def exPrev : BoardState :=
  { board_size := 9, komi := 7.5, user_color := "B", ai_color := "W",
    game_over := false, board := [["."]], moves := [] }

/-- A non-empty engine board. -/
def exKb : KataGoBoardState := { board := [["B"]], board_size := 9 }

/-- A database board distinct from the prior state. -/
def exDb : BoardState :=
  { board_size := 9, komi := 7.5, user_color := "B", ai_color := "W",
    game_over := false, board := [["W"]], moves := [] }

/-- A submit_move response. -/
def exResult : Api.SubmitMoveResult :=
  { game := exGame, user_move := "C3", ai_move := some "D4", score_delta := 0,
    bot_response := "ha" }

/-- A controller state holding exGame and exPrev, with no call in
flight. -/
def exState : Page.PageState :=
  { game := some exGame, boardState := some exPrev, messages := [],
    isSubmitting := false, isThinking := false, previewCoord := none,
    error := none, pendingMove := none, lastMoveCoord := none }

/-! ## Helper lemmas -/

theorem char_toUpper_of_below (c : Char) (h : c.toNat < 97) : c.toUpper = c := by
  have hno : ¬ (c.toNat ≥ 97 ∧ c.toNat ≤ 122) := by omega
  simp [Char.toUpper, hno]

theorem goBoard_parse_char (size : Int) (s : String) (n : Nat)
    (h2 : ¬ s.length < 2) (hn : jsParseInt (s.drop 1) = some n) :
    GoBoard.parseCoordinate size s =
      (if size - (n : Int) < 0 ∨ size ≤ size - (n : Int)
          ∨ letterColBoard s.front.toUpper < 0
          ∨ size ≤ letterColBoard s.front.toUpper
       then none
       else some { row := size - (n : Int), col := letterColBoard s.front.toUpper }) := by
  simp only [GoBoard.parseCoordinate, letterColBoard, if_neg h2, hn]

theorem page_parse_char (s : String) (size : Int) (n : Nat)
    (hn : jsParseInt (s.drop 1) = some n) :
    Page.parseCoordinate s size =
      some { row := size - (n : Int),
             col := (let colA : Int := (s.front.toUpper.toNat : Int) - 65
                     if 8 ≤ colA then colA - 1 else colA) } := by
  simp only [Page.parseCoordinate, hn, Option.map_some']

/-! ## Claim theorems -/

/-- C2: for every valid intersection (row, col) on a board of size 9,
13, or 19, the GoBoard parser inverts the GoBoard formatter,
`parseCoordinate size (getCoordinate size row col) = some (row, col)`,
and the letter sequence skips the letter I: column index 8 formats
with leading letter J, not I. -/
theorem c2_coordinate_roundtrip :
    (∀ row : Nat, row < 9 → ∀ col : Nat, col < 9 →
      GoBoard.parseCoordinate 9 (GoBoard.getCoordinate 9 row col)
        = some ⟨(row : Int), (col : Int)⟩)
    ∧ (∀ row : Nat, row < 13 → ∀ col : Nat, col < 13 →
      GoBoard.parseCoordinate 13 (GoBoard.getCoordinate 13 row col)
        = some ⟨(row : Int), (col : Int)⟩)
    ∧ (∀ row : Nat, row < 19 → ∀ col : Nat, col < 19 →
      GoBoard.parseCoordinate 19 (GoBoard.getCoordinate 19 row col)
        = some ⟨(row : Int), (col : Int)⟩)
    ∧ (∀ row : Nat, row < 19 →
      (GoBoard.getCoordinate 19 row 8).front = 'J'
      ∧ (GoBoard.getCoordinate 19 row 8).front ≠ 'I') := by
  refine ⟨?_, ?_, ?_, ?_⟩ <;> decide

/-- C2 witness: the round trip at the concrete intersection (3, 15) of
a 19×19 board, and the letter of column 8 at row 3. -/
theorem c2_coordinate_roundtrip_witness :
    GoBoard.parseCoordinate 19 (GoBoard.getCoordinate 19 3 15) = some ⟨3, 15⟩
    ∧ (GoBoard.getCoordinate 19 3 8).front = 'J' :=
  ⟨c2_coordinate_roundtrip.2.2.1 3 (by decide) 15 (by decide),
   (c2_coordinate_roundtrip.2.2.2 3 (by decide)).1⟩

/-- C3: the engine-moves-first condition of startGame holds exactly
for (handicap 0, user White) and (handicap positive, user Black), and
is false on the other two combinations. -/
theorem c3_engine_moves_first :
    (∀ (handicap : Int) (userColor : String),
      Page.llmShouldMoveFirst handicap userColor = true ↔
        (handicap = 0 ∧ userColor = "W") ∨ (0 < handicap ∧ userColor = "B"))
    ∧ Page.llmShouldMoveFirst 0 "W" = true
    ∧ Page.llmShouldMoveFirst 2 "B" = true
    ∧ Page.llmShouldMoveFirst 0 "B" = false
    ∧ Page.llmShouldMoveFirst 2 "W" = false := by
  refine ⟨fun handicap userColor => ?_, by decide, by decide, by decide, by decide⟩
  simp [Page.llmShouldMoveFirst]

/-- C8: the star points computed by renderStarPoints are exactly the
claimed sets for sizes 19, 13 and 9. -/
theorem c8_star_points :
    (GoBoard.starCoords 19).Perm
      [(3, 3), (3, 9), (3, 15), (9, 3), (9, 9), (9, 15), (15, 3), (15, 9), (15, 15)]
    ∧ (GoBoard.starCoords 13).Perm [(3, 3), (3, 9), (9, 3), (9, 9)]
    ∧ (GoBoard.starCoords 9).Perm [(2, 2), (2, 6), (6, 2), (6, 6), (4, 4)] := by
  refine ⟨?_, ?_, ?_⟩ <;> decide

/-- C9: on a 19×19 board both parsers resolve "Q16" to row 3,
column 15. -/
theorem c9_q16 :
    GoBoard.parseCoordinate 19 "Q16" = some ⟨3, 15⟩
    ∧ Page.parseCoordinate "Q16" 19 = some ⟨3, 15⟩ := by
  refine ⟨?_, ?_⟩ <;> decide

/-- C4: getKataGoBoardState returns null, never an error, on every
failure outcome: transport failure, expiry of its timeout, a non-ok
HTTP status, a body without the result envelope, and a
missing/non-array or empty board grid; every outcome yields either
null or a board state. -/
theorem c4_engine_fetch_total :
    Api.getKataGoBoardState .transportError = none
    ∧ Api.getKataGoBoardState .timeout = none
    ∧ (∀ json, Api.getKataGoBoardState (.httpResponse false json) = none)
    ∧ Api.getKataGoBoardState (.httpResponse true .parseError) = none
    ∧ Api.getKataGoBoardState (.httpResponse true (.value ⟨none⟩)) = none
    ∧ (∀ bsz, Api.getKataGoBoardState
        (.httpResponse true (.value ⟨some ⟨none, bsz⟩⟩)) = none)
    ∧ (∀ bsz, Api.getKataGoBoardState
        (.httpResponse true (.value ⟨some ⟨some [], bsz⟩⟩)) = none)
    ∧ (∀ o, Api.getKataGoBoardState o = none
        ∨ ∃ st, Api.getKataGoBoardState o = some st) := by
  refine ⟨rfl, rfl, fun json => rfl, rfl, rfl, fun bsz => rfl, fun bsz => rfl,
    fun o => ?_⟩
  cases h : Api.getKataGoBoardState o with
  | none => exact Or.inl rfl
  | some st => exact Or.inr ⟨st, rfl⟩

/-- C7: sendChatMessage rejects exactly on a non-ok response, while
createGame, getGameBoard, submitMove, getChatMessages and getFirstMove
return the parsed body whatever the status flag is. -/
theorem c7_status_handling :
    (∀ gid content role t (b : Api.ChatSendResult),
      Api.sendChatMessage gid content role ⟨false, t, b⟩
        = .error ("API error: " ++ t))
    ∧ (∀ gid content role t (b : Api.ChatSendResult),
      Api.sendChatMessage gid content role ⟨true, t, b⟩ = .ok b)
    ∧ (∀ bs komi h uc p ok t (b : Game),
      Api.createGame bs komi h uc p ⟨ok, t, b⟩ = b)
    ∧ (∀ gid ok t (b : BoardState), Api.getGameBoard gid ⟨ok, t, b⟩ = b)
    ∧ (∀ gid coord ok t (b : Api.SubmitMoveResult),
      Api.submitMove gid coord ⟨ok, t, b⟩ = b)
    ∧ (∀ gid ok t (b : List ChatMsg), Api.getChatMessages gid ⟨ok, t, b⟩ = b)
    ∧ (∀ gid ok t (b : Api.FirstMoveResult), Api.getFirstMove gid ⟨ok, t, b⟩ = b) := by
  exact ⟨fun _ _ _ _ _ => rfl, fun _ _ _ _ _ => rfl, fun _ _ _ _ _ _ _ _ => rfl,
    fun _ _ _ _ => rfl, fun _ _ _ _ _ => rfl, fun _ _ _ _ => rfl,
    fun _ _ _ _ => rfl⟩

/-- C6: while the in-flight flag isSubmitting is set, handleMoveSubmit
returns at its guard: the whole state, in particular the message list
and the board state, is unchanged, whatever the coordinate and the
network outcome. -/
theorem c6_inflight_noop (g : Option Game) (bs : Option BoardState)
    (msgs : List ChatMsg) (th : Bool) (pv err : Option String)
    (pm : Option Page.PendingMove) (lm : Option String)
    (coordinate : String) (uid bid : Nat) (now : String) (o : Page.MoveOutcome) :
    Page.handleMoveSubmit
      { game := g, boardState := bs, messages := msgs, isSubmitting := true,
        isThinking := th, previewCoord := pv, error := err, pendingMove := pm,
        lastMoveCoord := lm } coordinate uid bid now o
    = { game := g, boardState := bs, messages := msgs, isSubmitting := true,
        isThinking := th, previewCoord := pv, error := err, pendingMove := pm,
        lastMoveCoord := lm } := by
  cases g <;> rfl

/-- C5: when submitMove rejects, the optimistic user entry (id
userMsgId) appended before the call is filtered out again — so with a
fresh id the message list returns to its prior value — the error
banner is set, and the in-flight flags and the ghost-stone pending
move are cleared. -/
theorem c5_failure_rollback (s : Page.PageState) (game : Game)
    (coordinate : String) (uid bid : Nat) (now : String)
    (hg : s.game = some game) (hsub : s.isSubmitting = false) :
    (Page.handleMoveSubmit s coordinate uid bid now .submitRejects).messages
      = s.messages.filter (fun m => m.id != uid)
    ∧ ((∀ m ∈ s.messages, m.id ≠ uid) →
      (Page.handleMoveSubmit s coordinate uid bid now .submitRejects).messages
        = s.messages)
    ∧ (Page.handleMoveSubmit s coordinate uid bid now .submitRejects).error
      = some ("Failed to submit move")
    ∧ (Page.handleMoveSubmit s coordinate uid bid now .submitRejects).isSubmitting
      = false
    ∧ (Page.handleMoveSubmit s coordinate uid bid now .submitRejects).isThinking
      = false
    ∧ (Page.handleMoveSubmit s coordinate uid bid now .submitRejects).pendingMove
      = none := by
  have hmsg : (Page.handleMoveSubmit s coordinate uid bid now .submitRejects).messages
      = s.messages.filter (fun m => m.id != uid) := by
    simp [Page.handleMoveSubmit, hg, hsub, List.filter_append]
  refine ⟨hmsg, fun hfresh => ?_, ?_, ?_, ?_, ?_⟩
  · rw [hmsg]
    exact List.filter_eq_self.mpr fun m hm => by
      simpa using hfresh m hm
  all_goals simp [Page.handleMoveSubmit, hg, hsub]

/-- C5 witness: a concrete state with one prior message and a fresh
optimistic id 100. -/
theorem c5_failure_rollback_witness :
    (Page.handleMoveSubmit
      { game := some { id := 1, board_size := 9, komi := 7.5, handicap := 0,
                       user_color := "B", ai_color := "W", game_over := false,
                       persona := "arrogant", created_at := "t0" },
        boardState := none,
        messages := [{ id := 1, role := "assistant", content := "hi",
                       created_at := "t0" }],
        isSubmitting := false, isThinking := false, previewCoord := none,
        error := none, pendingMove := none, lastMoveCoord := none }
      "C3" 100 101 "t1" .submitRejects).messages
      = [{ id := 1, role := "assistant", content := "hi", created_at := "t0" }]
    ∧ (Page.handleMoveSubmit
      { game := some { id := 1, board_size := 9, komi := 7.5, handicap := 0,
                       user_color := "B", ai_color := "W", game_over := false,
                       persona := "arrogant", created_at := "t0" },
        boardState := none,
        messages := [{ id := 1, role := "assistant", content := "hi",
                       created_at := "t0" }],
        isSubmitting := false, isThinking := false, previewCoord := none,
        error := none, pendingMove := none, lastMoveCoord := none }
      "C3" 100 101 "t1" .submitRejects).error = some ("Failed to submit move") := by
  have h := c5_failure_rollback
    { game := some { id := 1, board_size := 9, komi := 7.5, handicap := 0,
                     user_color := "B", ai_color := "W", game_over := false,
                     persona := "arrogant", created_at := "t0" },
      boardState := none,
      messages := [{ id := 1, role := "assistant", content := "hi",
                     created_at := "t0" }],
      isSubmitting := false, isThinking := false, previewCoord := none,
      error := none, pendingMove := none, lastMoveCoord := none }
    { id := 1, board_size := 9, komi := 7.5, handicap := 0,
      user_color := "B", ai_color := "W", game_over := false,
      persona := "arrogant", created_at := "t0" }
    "C3" 100 101 "t1" rfl rfl
  exact ⟨h.2.1 (by decide), h.2.2.1⟩

/-- C1 counterexample: a prior board state exists (game_over false)
and the engine returns a non-empty grid, yet the displayed game_over
is true, the Game's value — the merge uses JavaScript `||`, which
falls back to the Game's value on every falsy prior field, not only
when no prior state exists. -/
theorem c1_counterexample :
    exState.boardState = some exPrev
    ∧ exPrev.game_over = false
    ∧ 0 < exKb.board.length
    ∧ ((Page.handleMoveSubmit exState "C3" 10 11 "t"
        (.submitResolves exResult (some exKb) (.ok exDb))).boardState.map
          fun b => b.game_over) = some true := by
  refine ⟨rfl, rfl, by decide, by decide⟩

/-- C1 amended: after a successful move submission, a non-null,
non-empty engine grid makes the displayed board take board_size and
grid from the engine response, while komi, user_color and ai_color are
carried over from the prior state unless that value is falsy (0, or
the empty string) or no prior state exists — then the Game's value is
used — and game_over is the disjunction of the prior flag and the
Game's flag; a null or empty engine grid makes the board state be
replaced wholesale by the database board fetch. -/
theorem c1_board_merge (s : Page.PageState) (game : Game)
    (coordinate : String) (uid bid : Nat) (now : String)
    (result : Api.SubmitMoveResult) (kb : KataGoBoardState)
    (dbBoard : BoardState) (dbFetch : Except Unit BoardState)
    (hg : s.game = some game) (hsub : s.isSubmitting = false) :
    (0 < kb.board.length →
      (Page.handleMoveSubmit s coordinate uid bid now
          (.submitResolves result (some kb) dbFetch)).boardState
        = some
          { board_size := kb.board_size,
            komi := match s.boardState with
              | some prev => if prev.komi = 0 then game.komi else prev.komi
              | none => game.komi,
            user_color := match s.boardState with
              | some prev =>
                if prev.user_color = "" then game.user_color else prev.user_color
              | none => game.user_color,
            ai_color := match s.boardState with
              | some prev =>
                if prev.ai_color = "" then game.ai_color else prev.ai_color
              | none => game.ai_color,
            game_over := match s.boardState with
              | some prev => prev.game_over || game.game_over
              | none => game.game_over,
            board := kb.board,
            moves := match s.boardState with
              | some prev => prev.moves
              | none => [] })
    ∧ ((Page.handleMoveSubmit s coordinate uid bid now
          (.submitResolves result none (.ok dbBoard))).boardState = some dbBoard)
    ∧ (kb.board.length = 0 →
        (Page.handleMoveSubmit s coordinate uid bid now
          (.submitResolves result (some kb) (.ok dbBoard))).boardState
          = some dbBoard) := by
  refine ⟨fun hlen => ?_, ?_, fun hlen => ?_⟩
  · cases hbs : s.boardState with
    | none => simp [Page.handleMoveSubmit, hg, hsub, hbs, hlen, jsOr]
    | some prev =>
      cases hgo : prev.game_over <;>
        simp [Page.handleMoveSubmit, hg, hsub, hbs, hlen, hgo, jsOr, beq_iff_eq]
  · simp [Page.handleMoveSubmit, hg, hsub]
  · have hnot : ¬ 0 < kb.board.length := by omega
    simp [Page.handleMoveSubmit, hg, hsub, hnot]

/-- C1 witness: the amended merge at the concrete example state — the
engine branch merges exPrev with exGame, and the null-engine branch
returns the database board exDb. -/
theorem c1_board_merge_witness :
    (Page.handleMoveSubmit exState "C3" 10 11 "t"
        (.submitResolves exResult (some exKb) (.ok exDb))).boardState
      = some { board_size := 9, komi := 7.5, user_color := "B", ai_color := "W",
               game_over := true, board := [["B"]], moves := [] }
    ∧ (Page.handleMoveSubmit exState "C3" 10 11 "t"
        (.submitResolves exResult none (.ok exDb))).boardState = some exDb := by
  have h := c1_board_merge exState exGame "C3" 10 11 "t" exResult exKb exDb
    (.ok exDb) rfl rfl
  refine ⟨?_, h.2.1⟩
  have h1 := h.1 (by decide)
  rw [h1]
  norm_num [exState, exPrev, exGame, exKb]

/-- C10: wherever the coordinate string has an uppercase letter
between A and T with digits after it, the controller's and the
renderer's parsers agree — they return the same row/column pair
whenever the letter is not I and row and column land on the board —
they disagree on the letter I (controller column 7, renderer
column 8), and on out-of-range inputs the renderer returns null while
the controller returns an out-of-range pair. -/
theorem c10_two_parsers (size : Int) (hsize : size = 9 ∨ size = 13 ∨ size = 19)
    (s : String) (c : Char) (n : Nat)
    (hlen : 2 ≤ s.length) (hfront : s.front = c)
    (hc : 65 ≤ c.toNat ∧ c.toNat ≤ 84)
    (hnum : jsParseInt (s.drop 1) = some n) :
    (c.toNat ≠ 73 → 1 ≤ n → (n : Int) ≤ size → letterColBoard c < size →
      Page.parseCoordinate s size = some ⟨size - (n : Int), letterColBoard c⟩
      ∧ GoBoard.parseCoordinate size s = some ⟨size - (n : Int), letterColBoard c⟩)
    ∧ (c.toNat = 73 → 1 ≤ n → (n : Int) ≤ size →
      Page.parseCoordinate s size = some ⟨size - (n : Int), 7⟩
      ∧ GoBoard.parseCoordinate size s = some ⟨size - (n : Int), 8⟩)
    ∧ ((¬ (1 ≤ n ∧ (n : Int) ≤ size) ∨ size ≤ letterColBoard c) →
      GoBoard.parseCoordinate size s = none
      ∧ ∃ p : RowCol, Page.parseCoordinate s size = some p
          ∧ (p.row < 0 ∨ size ≤ p.row ∨ size ≤ p.col)) := by
  have hup : s.front.toUpper = c := by
    rw [hfront]; exact char_toUpper_of_below c (by omega)
  have hb := goBoard_parse_char size s n (by omega) hnum
  have hp := page_parse_char s size n hnum
  rw [hup] at hb hp
  have hcol0 : 0 ≤ letterColBoard c := by
    simp only [letterColBoard]; split_ifs <;> omega
  refine ⟨fun hne h1 h2 hcol => ⟨?_, ?_⟩, fun heq h1 h2 => ⟨?_, ?_⟩,
    fun hoor => ⟨?_, ?_⟩⟩
  · rw [hp]
    simp only [Option.some_inj, RowCol.mk.injEq, letterColBoard]
    refine ⟨trivial, ?_⟩
    split_ifs <;> omega
  · rw [hb, if_neg (by omega)]
  · rw [hp]
    simp only [Option.some_inj, RowCol.mk.injEq, heq]
    norm_num
  · have hcol8 : letterColBoard c = 8 := by
      simp [letterColBoard, heq]
    rw [hb, hcol8, if_neg (by omega)]
  · rw [hb, if_pos ?_]
    simp only [letterColBoard] at hoor ⊢
    split_ifs at hoor ⊢ <;> omega
  · refine ⟨_, hp, ?_⟩
    dsimp only
    simp only [letterColBoard] at hoor
    split_ifs at hoor ⊢ <;> omega

/-- C10 witness: the agreement branch at board size 19 on the
coordinate "D4": both parsers return row 15, column 3. -/
theorem c10_two_parsers_witness :
    Page.parseCoordinate "D4" 19 = some ⟨15, 3⟩
    ∧ GoBoard.parseCoordinate 19 "D4" = some ⟨15, 3⟩ := by
  have h := (c10_two_parsers 19 (by decide) "D4" 'D' 4 (by decide) (by decide)
    (by decide) (by decide)).1 (by decide) (by decide) (by decide) (by decide)
  exact ⟨by rw [h.1]; decide, by rw [h.2]; decide⟩

end Katagollum
